import Mathlib

/-!
# Verification of the Gemini-LaTeX document pipeline

Shallow embedding of the core of the `gemini_latex` package:

* `document_editor.py` — the session/version store (`create_editing_session`,
  `apply_modification`, `revert_to_version`, `load_session`);
* `latex_compiler.py`  — the multi-engine compilation loop
  (`_run_latex_compilation`, `_is_engine_available`);
* `main.py`            — the generate-and-compile orchestrator
  (`GeminiLaTeXProcessor.generate_and_compile`, `_create_error_fix_context`);
* `gemini_client.py`   — the generation client (`GeminiClient.generate_latex`).

External effects (the Gemini remote call, subprocess invocations of the LaTeX
engines, the on-disk PDF artifact) are modelled as explicit oracles: a value
describing the outcome the environment would produce for each external call.
The Python functions themselves are translated line by line into pure Lean
functions over those oracles; dictionaries returned by the Python code become
structures with the same field names.
-/

namespace GeminiLatex

/-- `starts_with pat cs = true` iff the character list `cs` begins with `pat`. -/
def starts_with : List Char → List Char → Bool
  | [], _ => true
  | _ :: _, [] => false
  | p :: ps, c :: cs => p == c && starts_with ps cs

/-- `occurs_in pat cs = true` iff `pat` occurs contiguously inside `cs`. -/
def occurs_in (pat : List Char) : List Char → Bool
  | [] => pat.isEmpty
  | c :: cs => starts_with pat (c :: cs) || occurs_in pat cs

/-- Substring test: `str_contains s pat = true` iff `pat` occurs in `s`.
Mirrors Python's `pat in s` for the non-empty literal patterns the source
checks against. -/
def str_contains (s pat : String) : Bool :=
  occurs_in pat.data s.data

/-- Python's `str.strip()` with no argument: drop leading and trailing
ASCII whitespace. -/
def py_strip (s : String) : String :=
  let ws : Char → Bool := fun c =>
    c == ' ' || c == '\t' || c == '\n' || c == '\r' || c == '\x0b' || c == '\x0c'
  ⟨((s.data.dropWhile ws).reverse.dropWhile ws).reverse⟩

/-! ## Session/version data model (document_editor.py)

The JSON session record `session_data` and its `versions` entries become
structures with the same field names. -/

/-- One entry of `session_data["versions"]` (document_editor.py). -/
structure DocVersion where
  version : Nat
  latex_code : String
  change_description : String
  timestamp : String
deriving Repr, DecidableEq

/-- The persisted session record `session_data` (document_editor.py). -/
structure Session where
  session_id : String
  document_name : String
  original_prompt : String
  created_at : String
  versions : List DocVersion
  current_version : Nat
deriving Repr, DecidableEq

/-- `session_id = f"{document_name}_{int(time.time())}"`
(document_editor.py, `create_editing_session`).  `epoch_seconds` is the value
of `int(time.time())` at the moment of the call. -/
def create_session_id (document_name : String) (epoch_seconds : Nat) : String :=
  document_name ++ "_" ++ toString epoch_seconds

/-- `DocumentEditor.create_editing_session` (document_editor.py).
`epoch_seconds` models `int(time.time())`; `now_iso` models
`datetime.now().isoformat()`.  Returns the session id together with the
session record written to `session.json`. -/
def create_editing_session (initial_latex_code document_name original_prompt : String)
    (epoch_seconds : Nat) (now_iso : String) : String × Session :=
  let session_id := create_session_id document_name epoch_seconds
  (session_id,
    { session_id := session_id
      document_name := document_name
      original_prompt := original_prompt
      created_at := now_iso
      versions := [{ version := 1
                     latex_code := initial_latex_code
                     change_description := "Initial version"
                     timestamp := now_iso }]
      current_version := 1 })

/-- Outcome of the `gemini_client.generate_latex` call made inside
`apply_modification`: either the generated text or the raised error's message. -/
inductive GenOutcome where
  | ok (text : String)
  | error (msg : String)
deriving Repr, DecidableEq

/-- The dictionary returned by `DocumentEditor.apply_modification`.
`session_data` is the session record as returned in the dictionary (updated on
success, the unmodified loaded record on generation failure). -/
structure ModResult where
  success : Bool
  new_version : Option Nat
  latex_code : String
  error : Option String
  session_data : Session
deriving Repr, DecidableEq

/-- Core of `DocumentEditor.apply_modification` (document_editor.py) between
the `load_session` call and the save: reads `versions[-1]` (an empty version
list would raise `IndexError`, modelled as `Except.error`), invokes the
generation client (oracle `gen`), and either appends the new version or
returns the failure dictionary with the session untouched. -/
def apply_modification_session (session_data : Session) (modification_request : String)
    (gen : GenOutcome) (now_iso : String) : Except String ModResult :=
  match session_data.versions.getLast? with
  | none => .error "list index out of range"
  | some last_version =>
    match gen with
    | .ok modified_latex_code =>
      let new_version := session_data.current_version + 1
      let new_version_data : DocVersion :=
        { version := new_version
          latex_code := modified_latex_code
          change_description := modification_request
          timestamp := now_iso }
      .ok { success := true
            new_version := some new_version
            latex_code := modified_latex_code
            error := none
            session_data :=
              { session_data with
                versions := session_data.versions ++ [new_version_data]
                current_version := new_version } }
    | .error e =>
      .ok { success := false
            new_version := none
            latex_code := last_version.latex_code
            error := some ("Failed to apply modification: " ++ e)
            session_data := session_data }

/-- The persisted session store: the `sessions/` directory, one record per
session id (`session.json` files), as an association list. -/
abbrev SessionStore := List (String × Session)

/-- `DocumentEditor.load_session` (document_editor.py): raises
`FileNotFoundError` when the session record is absent. -/
def load_session (store : SessionStore) (session_id : String) : Except String Session :=
  match store.lookup session_id with
  | some s => .ok s
  | none => .error ("Session " ++ session_id ++ " not found")

/-- Overwriting `session.json` for an existing session id
(the `json.dump` save step of `apply_modification` / `revert_to_version`). -/
def save_session (store : SessionStore) (session_id : String) (s : Session) : SessionStore :=
  store.map (fun p => if p.1 == session_id then (session_id, s) else p)

/-- `DocumentEditor.apply_modification` (document_editor.py), store level:
load the session (propagating `FileNotFoundError`), run the modification, and
persist the updated record only on success — the failure branch returns before
any write, leaving the store untouched. -/
def apply_modification (store : SessionStore) (session_id : String)
    (modification_request : String) (gen : GenOutcome) (now_iso : String) :
    Except String (ModResult × SessionStore) :=
  match load_session store session_id with
  | .error e => .error e
  | .ok session_data =>
    match apply_modification_session session_data modification_request gen now_iso with
    | .error e => .error e
    | .ok r =>
      if r.success then .ok (r, save_session store session_id r.session_data)
      else .ok (r, store)

/-- The dictionary returned by `DocumentEditor.revert_to_version`
(minus the session record, which the Python code mutates in place and saves). -/
structure RevertResult where
  success : Bool
  error : Option String
  new_version : Option Nat
  latex_code : Option String
  reverted_from : Option Nat
deriving Repr, DecidableEq

/-- `DocumentEditor.revert_to_version` (document_editor.py): find the first
version whose number equals `version_number` (the `for` loop), fail if absent,
otherwise append a duplicate of the target's markup as a new version.
Returns the result dictionary together with the session record as persisted
(unchanged when the target is not found, since the save is never reached). -/
def revert_to_version (session_data : Session) (version_number : Nat) (now_iso : String) :
    RevertResult × Session :=
  match session_data.versions.find? (fun v => v.version == version_number) with
  | none =>
    ({ success := false
       error := some ("Version " ++ toString version_number ++ " not found")
       new_version := none
       latex_code := none
       reverted_from := none }, session_data)
  | some target_version =>
    let new_version := session_data.current_version + 1
    let new_version_data : DocVersion :=
      { version := new_version
        latex_code := target_version.latex_code
        change_description := "Reverted to version " ++ toString version_number
        timestamp := now_iso }
    let updated : Session :=
      { session_data with
        versions := session_data.versions ++ [new_version_data]
        current_version := new_version }
    ({ success := true
       error := none
       new_version := some new_version
       latex_code := some target_version.latex_code
       reverted_from := some version_number }, updated)

/-- One successful editing step on a session: a modification whose generation
call returned `generated`, or a revert to version `target`. -/
inductive EditOp where
  | modify (request : String) (generated : String) (now_iso : String)
  | revert (target : Nat) (now_iso : String)
deriving Repr, DecidableEq

/-- Apply one editing operation; `none` when the operation fails
(generation failure cannot happen here since `modify` carries the generated
text; `revert` fails when the target version does not exist). -/
def applyOp (s : Session) : EditOp → Option Session
  | .modify request generated now_iso =>
    match apply_modification_session s request (.ok generated) now_iso with
    | .ok r => if r.success then some r.session_data else none
    | .error _ => none
  | .revert target now_iso =>
    let step := revert_to_version s target now_iso
    if step.1.success then some step.2 else none

/-- Run a sequence of editing operations, stopping at the first failure. -/
def runOps (s : Session) : List EditOp → Option Session
  | [] => some s
  | op :: rest =>
    match applyOp s op with
    | some next => runOps next rest
    | none => none

/-- The session invariant of the spec: version numbers are exactly the
contiguous sequence `1..versions.length`, and `current_version` equals the
number of versions (hence the last version's number). -/
def SessionWF (s : Session) : Prop :=
  s.versions.map (fun v => v.version) = List.range' 1 s.versions.length ∧
  s.current_version = s.versions.length

instance (s : Session) : Decidable (SessionWF s) := by
  unfold SessionWF; infer_instance

/-! ## Multi-engine compilation loop (latex_compiler.py)

`subprocess.run` outcomes, engine availability, and PDF existence on disk are
modelled as an oracle record `CompilerWorld`; `_run_latex_compilation` is then
a pure function of that oracle. -/

/-- Outcome of one `subprocess.run` invocation of a LaTeX engine:
completion with a return code and captured streams, or `TimeoutExpired`. -/
inductive RunOutcome where
  | completed (returncode : Int) (stdout : String) (stderr : String)
  | timeout
deriving Repr, DecidableEq

/-- The environment of `_run_latex_compilation`:
* `available g` — the result of `_is_engine_available g` (the `--version`
  probe; its `FileNotFoundError`/`TimeoutExpired` are caught inside and
  surface as `false`);
* `run g n` — the outcome of run number `n` (0-based) of engine `g`;
* `pdf_exists g` — whether `os.path.exists(pdf_path)` holds at the check
  performed after engine `g`'s runs.

Engines are tried in a fixed order, so indexing these oracles by engine name
determines the whole interaction. -/
structure CompilerWorld where
  available : String → Bool
  run : String → Nat → RunOutcome
  pdf_exists : String → Bool

/-- The `engines_to_try` list of `_run_latex_compilation`: the configured
primary engine followed by the other two in the fallback order the source
fixes per primary. -/
def engines_to_try (latex_engine : String) : List String :=
  if latex_engine == "pdflatex" then [latex_engine, "xelatex", "lualatex"]
  else if latex_engine == "xelatex" then [latex_engine, "lualatex", "pdflatex"]
  else if latex_engine == "lualatex" then [latex_engine, "xelatex", "pdflatex"]
  else [latex_engine]

/-- One iteration of the inner `for run_number in range(2)` loop of
`_run_latex_compilation`: the log lines it appends and whether the run
succeeded (return code 0).  On a non-zero return code the source appends the
error line plus signature-specific hint lines; on `TimeoutExpired` it appends
the timeout line. -/
def run_once (w : CompilerWorld) (engine : String) (run_number : Nat) : List String × Bool :=
  match w.run engine run_number with
  | .completed returncode stdout stderr =>
    let base := ["Run " ++ toString (run_number + 1) ++ " with " ++ engine ++ ":", stdout]
      ++ (if stderr != "" then ["STDERR:", stderr] else [])
    if returncode != 0 then
      (base
        ++ ["ERROR: LaTeX compilation failed on run " ++ toString (run_number + 1)
              ++ " with " ++ engine]
        ++ (if str_contains stdout "auto expansion is only possible with scalable fonts" then
              ["HINT: Font expansion error detected. Trying different engine..."] else [])
        ++ (if str_contains stdout "Undefined control sequence" then
              ["HINT: Undefined control sequence detected. This may require specific packages."]
            else []), false)
    else (base, true)
  | .timeout =>
    (["ERROR: " ++ engine ++ " compilation timed out after 120 seconds"], false)

/-- The two-pass run loop for one engine: run 0, and run 1 only if run 0
succeeded (the loop breaks on failure).  Returns the appended log lines and
the final `success` flag. -/
def engine_runs (w : CompilerWorld) (engine : String) : List String × Bool :=
  let first := run_once w engine 0
  if first.2 then
    let second := run_once w engine 1
    (first.1 ++ second.1, second.2)
  else (first.1, false)

/-- The `for engine in engines_to_try` loop of `_run_latex_compilation`,
threading the accumulated `compilation_log` lines.  Returns the final log
lines and `some pdf_path` when an engine produced the artifact (clean success
or success-with-warnings), `none` when every engine was exhausted — the
branch in which the source appends the final error line and raises. -/
def compile_engines (w : CompilerWorld) (pdf_path : String) :
    List String → List String → List String × Option String
  | [], log =>
    (log ++ ["FINAL ERROR: All LaTeX engines failed. Last error: None"], none)
  | engine :: rest, log =>
    if w.available engine = false then
      compile_engines w pdf_path rest
        (log ++ ["Engine " ++ engine ++ " not available, skipping..."])
    else
      let log2 := log ++ ["\n=== Trying engine: " ++ engine ++ " ==="]
        ++ (engine_runs w engine).1
      if (engine_runs w engine).2 && w.pdf_exists engine then
        (log2 ++ ["SUCCESS: PDF generated successfully with " ++ engine], some pdf_path)
      else if w.pdf_exists engine then
        (log2 ++ ["WARNING: PDF generated with errors using " ++ engine], some pdf_path)
      else
        compile_engines w pdf_path rest
          (log2 ++ ["FAILED: No PDF generated with " ++ engine])

/-- `LaTeXCompiler._run_latex_compilation` (latex_compiler.py): on success the
pair `(pdf_path, "\n".join(compilation_log))`; on exhaustion the raised
`RuntimeError`'s message — note the source interpolates `last_error` (still
`None` when no engine body raised) and does **not** attach the accumulated
log to the exception. -/
def run_latex_compilation (w : CompilerWorld) (latex_engine : String) (pdf_path : String) :
    Except String (String × String) :=
  match compile_engines w pdf_path (engines_to_try latex_engine) [] with
  | (log, some p) => .ok (p, String.intercalate "\n" log)
  | (_, none) =>
    .error "All LaTeX engines failed. Last error: None. See compilation log for details."

/-! ## Generation client (gemini_client.py) -/

/-- Outcome of the remote `model.generate_content` call made by
`GeminiClient.generate_latex`: the response text, or the message of the
exception raised by the SDK (network error, timeout, blocked response). -/
inductive RemoteOutcome where
  | success (text : String)
  | failure (msg : String)
deriving Repr, DecidableEq

/-- `GeminiClient.generate_latex` (gemini_client.py).  The assembled
`full_prompt` (system prompt + optional context + user request) only feeds
the remote call, whose outcome the oracle `remote` supplies; the function
wraps any raised exception in `RuntimeError("Failed to generate LaTeX code: ...")`
and otherwise returns `response.text.strip()` — with no emptiness check. -/
def generate_latex (remote : RemoteOutcome) (prompt : String) (context : Option String) :
    Except String String :=
  match remote with
  | .failure e => .error ("Failed to generate LaTeX code: " ++ e)
  | .success t => .ok (py_strip t)

/-! ## Generate-and-compile orchestrator (main.py) -/

/-- `GeminiLaTeXProcessor._create_error_fix_context` (main.py): builds the
remediation-hint context from the compilation error message and (optional)
log, one block per detected error signature, then the fixed general hints. -/
def create_error_fix_context (error_msg : String) (compilation_log : Option String) : String :=
  let log_has : String → Bool := fun pat =>
    match compilation_log with
    | some l => str_contains l pat
    | none => false
  let fix_context := ["\nPlease fix the following LaTeX compilation issues:"]
  let fix_context := fix_context ++
    (if str_contains error_msg "auto expansion is only possible with scalable fonts"
        || log_has "auto expansion" then
      ["- FONT EXPANSION ERROR: Remove or comment out \\usepackage{microtype} or switch to XeLaTeX/LuaLaTeX",
       "- Alternative: Use \\usepackage[activate=\x7btrue,nocompatibility\x7d,final,tracking=true,kerning=true,spacing=true,factor=1100,stretch=10,shrink=10]\x7bmicrotype\x7d",
       "- Or switch to standard fonts without expansion features"]
    else [])
  let fix_context := fix_context ++
    (if str_contains error_msg "Undefined control sequence"
        || log_has "Undefined control sequence" then
      ["- UNDEFINED COMMAND ERROR: Remove undefined commands or include the required packages",
       "- Check that all \\usepackage\x7b\x7d declarations are correct and packages exist",
       "- Avoid custom commands that are not defined"]
    else [])
  let fix_context := fix_context ++
    (if str_contains error_msg "moderncv" || log_has "moderncv" then
      ["- MODERNCV ISSUES: Consider using standard article class instead for better compatibility",
       "- If using moderncv, avoid custom spacing commands like \\makecvfootertopskip",
       "- Use only standard moderncv commands and styles"]
    else [])
  let fix_context := fix_context ++
    (if str_contains error_msg "Emergency stop" || log_has "Emergency stop" then
      ["- CRITICAL ERROR: Check for missing \\begin\x7bdocument\x7d, unmatched braces, or syntax errors",
       "- Ensure document structure is complete and valid"]
    else [])
  let fix_context := fix_context ++
    ["\nGeneral fixes:",
     "- Use standard document classes (article, report, book) for maximum compatibility",
     "- Include proper encoding: \\usepackage[T1]\x7bfontenc\x7d and \\usepackage[utf8]\x7binputenc\x7d",
     "- Use widely supported packages: geometry, xcolor, hyperref, enumitem",
     "- Avoid specialized packages that might not be available",
     "- Generate clean, simple LaTeX code that works across different engines"]
  String.intercalate "\n" fix_context

/-- The dictionary returned by `GeminiLaTeXProcessor.generate_and_compile`
(main.py), with the same keys. -/
structure PipelineResult where
  success : Bool
  error : Option String
  latex_code : Option String
  tex_file : Option String
  pdf_file : Option String
  compilation_log : Option String
deriving Repr, DecidableEq

/-- The observable outcome of one `generate_and_compile` call:
the returned dictionary, the engine configured on `self.latex_compiler` when
the call returns (the processor state a subsequent call would start from),
and how many generation calls and compilation attempts were made. -/
structure PipelineTrace where
  result : PipelineResult
  final_engine : String
  gen_calls : Nat
  compile_attempts : Nat
deriving Repr, DecidableEq

/-- `GeminiLaTeXProcessor.generate_and_compile` (main.py).

Oracles: `gen n ctx` is the outcome of the `n`-th (0-based)
`gemini_client.generate_latex` call, given the context string that call
passes; `comp n` is the outcome of the `n`-th
`latex_compiler.compile_latex_to_pdf` call — `.ok (pdf_path, log)` or the
raised exception's message (which, per `run_latex_compilation`, carries no
log, so the local `compilation_log` of the Python function stays unbound on
every failing attempt and `'compilation_log' in locals()` is false at each
failure return).  `default_name` models `str(hash(prompt))[:8]`, the
interpreter-salted value used when `output_filename` is `None`.  The altacv
check replaces `self.latex_compiler` with a fresh xelatex compiler *on the
processor itself* (this embedding assumes the xelatex `--version` probe of
that constructor succeeds); the replacement is never undone. -/
def generate_and_compile (latex_engine : String) (default_output_dir : String)
    (gen : Nat → Option String → Except String String)
    (comp : Nat → Except String (String × String))
    (prompt : String) (output_filename : Option String) (default_name : String)
    (context : Option String) (save_tex : Bool) (retry_on_error : Bool) : PipelineTrace :=
  let ofn := match output_filename with
    | some n => n
    | none => "document_" ++ default_name
  match gen 0 context with
  | .error e =>
    { result := { success := false, error := some ("LaTeX generation failed: " ++ e),
                  latex_code := none, tex_file := none, pdf_file := none,
                  compilation_log := none }
      final_engine := latex_engine, gen_calls := 1, compile_attempts := 0 }
  | .ok latex_code =>
    let tex_file := default_output_dir ++ "/" ++ ofn ++ ".tex"
    let engine1 :=
      if str_contains latex_code "\\documentclass" && str_contains latex_code "altacv"
          && latex_engine != "xelatex" then "xelatex"
      else latex_engine
    match comp 0 with
    | .ok (compiled_pdf_path, compilation_log) =>
      { result := { success := true, error := none, latex_code := some latex_code,
                    tex_file := if save_tex then some tex_file else none,
                    pdf_file := some compiled_pdf_path,
                    compilation_log := some compilation_log }
        final_engine := engine1, gen_calls := 1, compile_attempts := 1 }
    | .error e1 =>
      if retry_on_error = false then
        { result := { success := false,
                      error := some ("LaTeX compilation failed: " ++ e1),
                      latex_code := some latex_code,
                      tex_file := if save_tex then some tex_file else none,
                      pdf_file := none, compilation_log := none }
          final_engine := engine1, gen_calls := 1, compile_attempts := 1 }
      else
        let error_context := create_error_fix_context e1 none
        let enhanced_context := match context with
          | some c => some (c ++ "\n\nIMPORTANT: Previous compilation failed with error: "
              ++ e1 ++ "\n" ++ error_context)
          | none => some error_context
        match gen 1 enhanced_context with
        | .error re =>
          { result := { success := false,
                        error := some ("LaTeX regeneration failed: " ++ re),
                        latex_code := some latex_code,
                        tex_file := if save_tex then some tex_file else none,
                        pdf_file := none, compilation_log := none }
            final_engine := engine1, gen_calls := 2, compile_attempts := 1 }
        | .ok latex_code2 =>
          match comp 1 with
          | .ok (compiled_pdf_path, compilation_log) =>
            { result := { success := true, error := none,
                          latex_code := some latex_code2,
                          tex_file := if save_tex then some tex_file else none,
                          pdf_file := some compiled_pdf_path,
                          compilation_log := some compilation_log }
              final_engine := engine1, gen_calls := 2, compile_attempts := 2 }
          | .error e2 =>
            { result := { success := false,
                          error := some ("LaTeX compilation failed: " ++ e2),
                          latex_code := some latex_code2,
                          tex_file := if save_tex then some tex_file else none,
                          pdf_file := none, compilation_log := none }
              final_engine := engine1, gen_calls := 2, compile_attempts := 2 }

/-! ## Theorems: session/version store -/

/-- In a list of versions numbered contiguously from `a`, the first version
numbered `a + length - 1` (the last number) is the last element. -/
theorem find_last_of_contiguous (l : List DocVersion) (a : Nat)
    (h : l.map (fun v => v.version) = List.range' a l.length) (hne : l ≠ []) :
    l.find? (fun v => v.version == a + l.length - 1) = l.getLast? := by
  induction l generalizing a with
  | nil => exact absurd rfl hne
  | cons v t ih =>
    rw [List.length_cons, List.range'_succ, List.map_cons, List.cons.injEq] at h
    obtain ⟨hv, ht⟩ := h
    cases t with
    | nil =>
      simp [List.find?, hv]
    | cons w t2 =>
      have hk : a + (v :: w :: t2).length - 1 = (a + 1) + (w :: t2).length - 1 := by
        simp only [List.length_cons]
        omega
      have hne2 : ¬ ((v.version == a + (v :: w :: t2).length - 1) = true) := by
        simp only [List.length_cons, beq_iff_eq, hv]
        omega
      have hstep : List.find? (fun x => x.version == a + (v :: w :: t2).length - 1)
            (v :: w :: t2)
          = List.find? (fun x => x.version == a + (v :: w :: t2).length - 1) (w :: t2) :=
        List.find?_cons_of_neg _ hne2
      rw [hstep, List.getLast?_cons_cons, hk]
      exact ih (a + 1) ht (by simp)

/-- Appending a version numbered `current_version + 1` (as both
`apply_modification` and `revert_to_version` do) preserves the session
invariant. -/
theorem wf_append_version (s : Session) (hwf : SessionWF s) (code desc ts : String) :
    SessionWF { s with
      versions := s.versions ++ [DocVersion.mk (s.current_version + 1) code desc ts],
      current_version := s.current_version + 1 } := by
  obtain ⟨hmap, hcur⟩ := hwf
  constructor
  · have hconcat : List.range' 1 (s.versions.length + 1)
        = List.range' 1 s.versions.length ++ [1 + 1 * s.versions.length] :=
      List.range'_concat 1 s.versions.length
    simp only [List.map_append, List.map_cons, List.map_nil, hmap, hcur, List.length_append,
      List.length_cons, List.length_nil]
    rw [hconcat]
    simp [Nat.add_comm]
  · simp [hcur]

/-- Each successful editing operation preserves the session invariant and
appends exactly one version. -/
theorem applyOp_preserves (s s2 : Session) (op : EditOp)
    (hwf : SessionWF s) (hne : s.versions ≠ [])
    (h : applyOp s op = some s2) :
    SessionWF s2 ∧ s2.versions.length = s.versions.length + 1 := by
  cases op with
  | modify request generated now_iso =>
    simp only [applyOp, apply_modification_session] at h
    cases hgl : s.versions.getLast? with
    | none => rw [hgl] at h; simp at h
    | some lastv =>
      rw [hgl] at h
      simp at h
      subst h
      exact ⟨wf_append_version s hwf generated request now_iso, by simp⟩
  | revert target now_iso =>
    simp only [applyOp, revert_to_version] at h
    cases hfind : s.versions.find? (fun v => v.version == target) with
    | none => rw [hfind] at h; simp at h
    | some tv =>
      rw [hfind] at h
      simp at h
      subst h
      exact ⟨wf_append_version s hwf tv.latex_code
        ("Reverted to version " ++ toString target) now_iso, by simp⟩

/-- A run of successful editing operations preserves the invariant and grows
the history by exactly one version per operation. -/
theorem runOps_preserves (ops : List EditOp) (s s2 : Session)
    (hwf : SessionWF s) (hne : s.versions ≠ [])
    (h : runOps s ops = some s2) :
    SessionWF s2 ∧ s2.versions.length = s.versions.length + ops.length := by
  induction ops generalizing s with
  | nil =>
    unfold runOps at h
    simp at h
    subst h
    exact ⟨hwf, by simp⟩
  | cons op rest ih =>
    unfold runOps at h
    cases hop : applyOp s op with
    | none => rw [hop] at h; simp at h
    | some next =>
      rw [hop] at h
      obtain ⟨hwf2, hlen2⟩ := applyOp_preserves s next op hwf hne hop
      have hne2 : next.versions ≠ [] := by
        rw [← List.length_pos_iff_ne_nil]
        omega
      obtain ⟨hwf3, hlen3⟩ := ih next hwf2 hne2 h
      exact ⟨hwf3, by rw [hlen3, hlen2]; simp; omega⟩

/-- Claim C2 (confirmed): starting from a fresh session, after `N` successful
`apply_modification`/`revert_to_version` operations the session has exactly
`N + 1` versions, their numbers are exactly the contiguous sequence
`1..N+1`, and `current_version` equals the last version's number, regardless
of how many of the operations were reverts. -/
theorem C2_session_version_invariant
    (initial_latex_code document_name original_prompt : String)
    (epoch_seconds : Nat) (now_iso : String) (ops : List EditOp) (s2 : Session)
    (h : runOps (create_editing_session initial_latex_code document_name original_prompt
          epoch_seconds now_iso).2 ops = some s2) :
    s2.versions.length = ops.length + 1 ∧
    s2.versions.map (fun v => v.version) = List.range' 1 (ops.length + 1) ∧
    s2.current_version = s2.versions.length ∧
    s2.versions.getLast?.map (fun v => v.version) = some s2.current_version := by
  have hwf0 : SessionWF (create_editing_session initial_latex_code document_name
      original_prompt epoch_seconds now_iso).2 := by
    constructor <;> simp [create_editing_session]
  have hne0 : (create_editing_session initial_latex_code document_name original_prompt
      epoch_seconds now_iso).2.versions ≠ [] := by
    simp [create_editing_session]
  obtain ⟨⟨hmap, hcur⟩, hlen⟩ := runOps_preserves ops _ s2 hwf0 hne0 h
  have hlen1 : s2.versions.length = ops.length + 1 := by
    rw [hlen]; simp [create_editing_session]; omega
  refine ⟨hlen1, by rw [hmap, hlen1], hcur, ?_⟩
  have hmap_last : (s2.versions.map (fun v => v.version)).getLast? =
      s2.versions.getLast?.map (fun v => v.version) := List.getLast?_map _ _
  rw [← hmap_last, hmap, hlen1]
  have hconcat : List.range' 1 (ops.length + 1)
      = List.range' 1 ops.length ++ [1 + 1 * ops.length] :=
    List.range'_concat 1 ops.length
  rw [Nat.one_mul] at hconcat
  rw [hconcat, List.getLast?_concat, hcur, hlen1]
  simp [Nat.add_comm]

/-- A fresh sample session used by the witnesses below. -/
def sampleSession : Session :=
  (create_editing_session "codeA" "doc" "p" 1700000000 "t1").2

/-- The operations of the C2 witness: one modification, one revert. -/
def sampleOps : List EditOp :=
  [.modify "make it shorter" "codeB" "t2", .revert 1 "t3"]

/-- The session obtained by running `sampleOps` on `sampleSession`. -/
def sampleSession3 : Session :=
  { session_id := "doc_1700000000", document_name := "doc", original_prompt := "p",
    created_at := "t1",
    versions := [{ version := 1, latex_code := "codeA",
                   change_description := "Initial version", timestamp := "t1" },
                 { version := 2, latex_code := "codeB",
                   change_description := "make it shorter", timestamp := "t2" },
                 { version := 3, latex_code := "codeA",
                   change_description := "Reverted to version 1", timestamp := "t3" }],
    current_version := 3 }

/-- Witness for C2 at a concrete two-operation run. -/
theorem C2_session_version_invariant_witness :
    sampleSession3.versions.length = sampleOps.length + 1 ∧
    sampleSession3.versions.map (fun v => v.version) = List.range' 1 (sampleOps.length + 1) ∧
    sampleSession3.current_version = sampleSession3.versions.length ∧
    sampleSession3.versions.getLast?.map (fun v => v.version) = some sampleSession3.current_version :=
  C2_session_version_invariant "codeA" "doc" "p" 1700000000 "t1" sampleOps sampleSession3 rfl

/-- Claim C6 (confirmed): reverting to an existing version number `k`
succeeds, the newest version afterwards carries the markup stored at version
`k` and the change description `"Reverted to version k"`, and the previous
history is preserved unchanged — the new state is exactly the old version
list with one version appended. -/
theorem C6_revert_round_trip (s : Session) (k : Nat) (now_iso : String) (v : DocVersion)
    (h : s.versions.find? (fun x => x.version == k) = some v) :
    (revert_to_version s k now_iso).1.success = true ∧
    (revert_to_version s k now_iso).2.versions
      = s.versions ++ [DocVersion.mk (s.current_version + 1) v.latex_code
          ("Reverted to version " ++ toString k) now_iso] ∧
    (revert_to_version s k now_iso).2.versions.getLast?.map (fun x => x.latex_code)
      = some v.latex_code ∧
    (revert_to_version s k now_iso).2.versions.getLast?.map (fun x => x.change_description)
      = some ("Reverted to version " ++ toString k) := by
  simp [revert_to_version, h]

/-- Witness for C6: reverting `sampleSession` to its version 1. -/
theorem C6_revert_round_trip_witness :
    (revert_to_version sampleSession 1 "t2").1.success = true ∧
    (revert_to_version sampleSession 1 "t2").2.versions
      = sampleSession.versions ++ [DocVersion.mk (sampleSession.current_version + 1) "codeA"
          ("Reverted to version " ++ toString 1) "t2"] ∧
    (revert_to_version sampleSession 1 "t2").2.versions.getLast?.map (fun x => x.latex_code)
      = some "codeA" ∧
    (revert_to_version sampleSession 1 "t2").2.versions.getLast?.map
        (fun x => x.change_description)
      = some ("Reverted to version " ++ toString 1) :=
  C6_revert_round_trip sampleSession 1 "t2"
    (DocVersion.mk 1 "codeA" "Initial version" "t1") rfl

/-- Claim C10 (confirmed): reverting to the current version number is
accepted, not rejected: it appends a new version duplicating the current
version's markup, with description `"Reverted to version k"`, and increments
`current_version`. -/
theorem C10_revert_to_current_version (s : Session) (now_iso : String)
    (hwf : SessionWF s) (hne : s.versions ≠ []) :
    (revert_to_version s s.current_version now_iso).1.success = true ∧
    (revert_to_version s s.current_version now_iso).2.current_version
      = s.current_version + 1 ∧
    (revert_to_version s s.current_version now_iso).2.versions.getLast?.map
        (fun x => x.latex_code)
      = s.versions.getLast?.map (fun x => x.latex_code) ∧
    (revert_to_version s s.current_version now_iso).2.versions.getLast?.map
        (fun x => x.change_description)
      = some ("Reverted to version " ++ toString s.current_version) := by
  obtain ⟨hmap, hcur⟩ := hwf
  have hfind : s.versions.find? (fun v => v.version == s.current_version)
      = s.versions.getLast? := by
    have hlast := find_last_of_contiguous s.versions 1 hmap hne
    have hk : 1 + s.versions.length - 1 = s.versions.length := by omega
    rw [hk] at hlast
    rw [hcur]
    exact hlast
  cases hgl : s.versions.getLast? with
  | none =>
    exact absurd (List.getLast?_eq_none_iff.mp hgl) hne
  | some lastv =>
    rw [hgl] at hfind
    simp [revert_to_version, hfind, hgl]

/-- A two-version well-formed session used by the C10 witness. -/
def sampleSession2 : Session :=
  { session_id := "doc_1700000000", document_name := "doc", original_prompt := "p",
    created_at := "t1",
    versions := [{ version := 1, latex_code := "codeA",
                   change_description := "Initial version", timestamp := "t1" },
                 { version := 2, latex_code := "codeB",
                   change_description := "make it shorter", timestamp := "t2" }],
    current_version := 2 }

/-- Witness for C10: reverting `sampleSession2` to its current version 2. -/
theorem C10_revert_to_current_version_witness :
    (revert_to_version sampleSession2 sampleSession2.current_version "t3").1.success = true ∧
    (revert_to_version sampleSession2 sampleSession2.current_version "t3").2.current_version
      = sampleSession2.current_version + 1 ∧
    (revert_to_version sampleSession2 sampleSession2.current_version "t3").2.versions.getLast?.map
        (fun x => x.latex_code)
      = sampleSession2.versions.getLast?.map (fun x => x.latex_code) ∧
    (revert_to_version sampleSession2 sampleSession2.current_version "t3").2.versions.getLast?.map
        (fun x => x.change_description)
      = some ("Reverted to version " ++ toString sampleSession2.current_version) :=
  C10_revert_to_current_version sampleSession2 "t3" (by decide) (by decide)

/-- Claim C7 (confirmed): when the generation call inside
`apply_modification` fails, the returned dictionary is the failure marker
carrying the unmodified session, and the persisted store is returned
untouched — no version is appended and `current_version` is unchanged. -/
theorem C7_failed_modification_preserves_session (store : SessionStore) (session_id : String)
    (modification_request : String) (e : String) (now_iso : String)
    (s : Session) (lastv : DocVersion)
    (hload : store.lookup session_id = some s)
    (hlast : s.versions.getLast? = some lastv) :
    apply_modification store session_id modification_request (.error e) now_iso
      = .ok ({ success := false, new_version := none, latex_code := lastv.latex_code,
               error := some ("Failed to apply modification: " ++ e), session_data := s },
             store) := by
  simp [apply_modification, load_session, apply_modification_session, hload, hlast]

/-- Witness for C7: a failed generation call on a one-session store. -/
theorem C7_failed_modification_preserves_session_witness :
    apply_modification [("doc_1700000000", sampleSession)] "doc_1700000000"
        "make it shorter" (.error "timeout") "t2"
      = .ok ({ success := false, new_version := none, latex_code := "codeA",
               error := some ("Failed to apply modification: " ++ "timeout"),
               session_data := sampleSession },
             [("doc_1700000000", sampleSession)]) :=
  C7_failed_modification_preserves_session [("doc_1700000000", sampleSession)]
    "doc_1700000000" "make it shorter" "timeout" "t2" sampleSession
    (DocVersion.mk 1 "codeA" "Initial version" "t1") rfl rfl

/-- Claim C9 (code_bug): the claim demands distinct session ids for
concurrent creations with the same document name, but
`create_editing_session` derives the id as `f"{document_name}_{int(time.time())}"`,
so two creations with the same name within the same wall-clock second — here
epoch second 1700000000, with different markup and prompts — receive the
identical id `"doc_1700000000"`. -/
theorem C9_session_id_collision :
    (create_editing_session "codeA" "doc" "promptA" 1700000000 "t1").1
      = (create_editing_session "codeB" "doc" "promptB" 1700000000 "t2").1 ∧
    (create_editing_session "codeA" "doc" "promptA" 1700000000 "t1").1
      = "doc_1700000000" := by
  constructor <;> rfl

/-! ## Theorems: multi-engine compilation loop -/

/-- The engine loop only ever appends to the accumulated log. -/
theorem compile_engines_log_mono (w : CompilerWorld) (pdfp : String) (engines : List String)
    (log : List String) (x : String) (hx : x ∈ log) :
    x ∈ (compile_engines w pdfp engines log).1 := by
  induction engines generalizing log with
  | nil => simp only [compile_engines]; exact List.mem_append_left _ hx
  | cons g rest ih =>
    simp only [compile_engines]
    by_cases hg : w.available g = false
    · rw [if_pos hg]
      exact ih _ (List.mem_append_left _ hx)
    · rw [if_neg hg]
      split
      · exact List.mem_append_left _ (List.mem_append_left _ (List.mem_append_left _ hx))
      · split
        · exact List.mem_append_left _ (List.mem_append_left _ (List.mem_append_left _ hx))
        · exact ih _ (List.mem_append_left _ (List.mem_append_left _ (List.mem_append_left _ hx)))

/-- The engine loop exhausts all candidates (returns no artifact) exactly when
no candidate is both available and leaves the PDF on disk after its runs. -/
theorem compile_engines_none_iff (w : CompilerWorld) (pdfp : String) (engines : List String)
    (log : List String) :
    (compile_engines w pdfp engines log).2 = none ↔
      ∀ g ∈ engines, ¬(w.available g = true ∧ w.pdf_exists g = true) := by
  induction engines generalizing log with
  | nil => simp [compile_engines]
  | cons g rest ih =>
    simp only [compile_engines]
    by_cases hg : w.available g = false
    · rw [if_pos hg]
      simp [hg, ih]
    · have hg' : w.available g = true := by
        revert hg; cases w.available g <;> simp
      rw [if_neg hg]
      by_cases hp : w.pdf_exists g = true
      · cases hr : (engine_runs w g).2 <;> simp [hr, hp, hg']
      · have hp' : w.pdf_exists g = false := by
          revert hp; cases w.pdf_exists g <;> simp

        simp [hp', hg', ih]

/-- In the exhausted case, every candidate engine left a trace in the
accumulated log: either its "not available, skipping" line or its
"Trying engine" header. -/
theorem compile_engines_mentions_engine (w : CompilerWorld) (pdfp : String)
    (engines : List String) (log : List String) (g : String) (hg : g ∈ engines)
    (hfail : (compile_engines w pdfp engines log).2 = none) :
    ("Engine " ++ g ++ " not available, skipping...")
        ∈ (compile_engines w pdfp engines log).1 ∨
    ("\n=== Trying engine: " ++ g ++ " ===")
        ∈ (compile_engines w pdfp engines log).1 := by
  induction engines generalizing log with
  | nil => cases hg
  | cons e rest ih =>
    simp only [compile_engines] at hfail ⊢
    by_cases he : w.available e = false
    · rw [if_pos he] at hfail ⊢
      rcases List.mem_cons.mp hg with rfl | hg2
      · exact Or.inl (compile_engines_log_mono w pdfp rest _ _ (by simp))
      · exact ih _ hg2 hfail
    · rw [if_neg he] at hfail ⊢
      by_cases hp : w.pdf_exists e = true
      · cases hr : (engine_runs w e).2 <;> simp [hr, hp] at hfail
      · have hp' : w.pdf_exists e = false := by
          revert hp; cases w.pdf_exists e <;> simp
        simp only [hp', Bool.and_false, if_false, Bool.false_eq_true] at hfail ⊢
        rcases List.mem_cons.mp hg with rfl | hg2
        · exact Or.inr (compile_engines_log_mono w pdfp rest _ _ (by simp))
        · exact ih _ hg2 hfail

/-- `_run_latex_compilation` raises (with its fixed summary message) exactly
when the engine loop was exhausted. -/
theorem run_latex_compilation_error_iff (w : CompilerWorld) (latex_engine pdf_path : String) :
    (run_latex_compilation w latex_engine pdf_path
        = .error "All LaTeX engines failed. Last error: None. See compilation log for details.")
      ↔ (compile_engines w pdf_path (engines_to_try latex_engine) []).2 = none := by
  unfold run_latex_compilation
  rcases h : compile_engines w pdf_path (engines_to_try latex_engine) [] with ⟨lines, out⟩
  cases out <;> simp

/-- Claim C3 (corrected): `_run_latex_compilation` raises exactly when every
candidate engine fails to produce an artifact file, and in that case the
*internal* accumulated log contains an entry for every attempted engine; but
the raised error carries only the fixed summary message, not the accumulated
log (see `C3_error_lacks_log`). -/
theorem C3_compile_failure_aggregation (w : CompilerWorld) (latex_engine pdf_path : String) :
    ((run_latex_compilation w latex_engine pdf_path
        = .error "All LaTeX engines failed. Last error: None. See compilation log for details.")
      ↔ ∀ g ∈ engines_to_try latex_engine,
          ¬(w.available g = true ∧ w.pdf_exists g = true)) ∧
    ((∀ g ∈ engines_to_try latex_engine, ¬(w.available g = true ∧ w.pdf_exists g = true)) →
      ∀ g ∈ engines_to_try latex_engine,
        ("Engine " ++ g ++ " not available, skipping...")
            ∈ (compile_engines w pdf_path (engines_to_try latex_engine) []).1 ∨
        ("\n=== Trying engine: " ++ g ++ " ===")
            ∈ (compile_engines w pdf_path (engines_to_try latex_engine) []).1) := by
  constructor
  · rw [run_latex_compilation_error_iff]
    exact compile_engines_none_iff w pdf_path (engines_to_try latex_engine) []
  · intro hall g hg
    exact compile_engines_mentions_engine w pdf_path (engines_to_try latex_engine) [] g hg
      ((compile_engines_none_iff w pdf_path (engines_to_try latex_engine) []).mpr hall)

/-- A world in which no engine is available at all. -/
def unavailableWorld : CompilerWorld :=
  { available := fun _ => false, run := fun _ _ => .timeout, pdf_exists := fun _ => false }

/-- Witness for C3: in `unavailableWorld` every engine fails, so
`_run_latex_compilation` raises with the fixed summary message. -/
theorem C3_compile_failure_aggregation_witness :
    run_latex_compilation unavailableWorld "pdflatex" "document.pdf"
      = .error "All LaTeX engines failed. Last error: None. See compilation log for details." :=
  (C3_compile_failure_aggregation unavailableWorld "pdflatex" "document.pdf").1.mpr
    (by decide)

/-- Counterexample for C3 as stated: when all engines fail, the raised error
is the fixed summary message; the per-engine entries live only in the local
`compilation_log` (here: the "not available, skipping" line for the primary),
and that accumulated log is not contained in — nor carried by — the raised
error. -/
theorem C3_error_lacks_log :
    run_latex_compilation unavailableWorld "pdflatex" "document.pdf"
      = .error "All LaTeX engines failed. Last error: None. See compilation log for details." ∧
    ("Engine pdflatex not available, skipping...")
        ∈ (compile_engines unavailableWorld "document.pdf" (engines_to_try "pdflatex") []).1 ∧
    str_contains "All LaTeX engines failed. Last error: None. See compilation log for details."
        "Engine pdflatex not available, skipping..." = false ∧
    str_contains "All LaTeX engines failed. Last error: None. See compilation log for details."
        "pdflatex" = false := by
  refine ⟨rfl, by decide, by decide, by decide⟩

/-- The two fallback candidates that `_run_latex_compilation` appends after
the configured primary, in the source's fixed per-primary order. -/
def fallback_engines (latex_engine : String) : List String :=
  if latex_engine == "pdflatex" then ["xelatex", "lualatex"]
  else if latex_engine == "xelatex" then ["lualatex", "pdflatex"]
  else if latex_engine == "lualatex" then ["xelatex", "pdflatex"]
  else []

/-- Every candidate list is the primary followed by its fallbacks. -/
theorem engines_to_try_eq (latex_engine : String) :
    engines_to_try latex_engine = latex_engine :: fallback_engines latex_engine := by
  unfold engines_to_try fallback_engines
  split_ifs <;> rfl

/-- Exact characterization of the lines the engine loop appends while
scanning its candidate list: a "not available, skipping" entry for each
unavailable candidate, a "Trying engine" header plus run lines for each
attempted one, stopping with the SUCCESS/WARNING entry of the first candidate
that leaves the artifact on disk, recording a FAILED entry and moving on
otherwise, and closing with the FINAL ERROR entry when exhausted. -/
def engine_loop_log (w : CompilerWorld) : List String → List String
  | [] => ["FINAL ERROR: All LaTeX engines failed. Last error: None"]
  | g :: rest =>
    if w.available g = false then
      ("Engine " ++ g ++ " not available, skipping...") :: engine_loop_log w rest
    else
      ("\n=== Trying engine: " ++ g ++ " ===") ::
        ((engine_runs w g).1 ++
          (if (engine_runs w g).2 && w.pdf_exists g then
            ["SUCCESS: PDF generated successfully with " ++ g]
          else if w.pdf_exists g then
            ["WARNING: PDF generated with errors using " ++ g]
          else
            ("FAILED: No PDF generated with " ++ g) :: engine_loop_log w rest))

/-- The engine loop always appends at least one line. -/
theorem engine_loop_log_ne_nil (w : CompilerWorld) (engines : List String) :
    engine_loop_log w engines ≠ [] := by
  cases engines with
  | nil => simp [engine_loop_log]
  | cons g rest =>
    simp only [engine_loop_log]
    split_ifs <;> simp

/-- The accumulated log of the engine loop is exactly the incoming log
followed by `engine_loop_log` of the candidate list. -/
theorem compile_engines_log_spec (w : CompilerWorld) (pdf_path : String)
    (engines : List String) (log : List String) :
    (compile_engines w pdf_path engines log).1 = log ++ engine_loop_log w engines := by
  induction engines generalizing log with
  | nil => simp [compile_engines, engine_loop_log]
  | cons g rest ih =>
    simp only [compile_engines, engine_loop_log]
    by_cases hg : w.available g = false
    · rw [if_pos hg, if_pos hg, ih]
      simp
    · rw [if_neg hg, if_neg hg]
      by_cases hc1 : ((engine_runs w g).2 && w.pdf_exists g) = true
      · simp [hc1]
      · by_cases hc2 : w.pdf_exists g = true
        · have hx : (engine_runs w g).2 = false := by
            revert hc1; rw [hc2]; cases (engine_runs w g).2 <;> simp
          simp [hx, hc2]
        · simp [hc1, hc2, ih]

/-- The engine loop returns the artifact path exactly when some candidate is
both available and leaves the PDF on disk after its runs. -/
theorem compile_engines_some_iff (w : CompilerWorld) (pdf_path : String)
    (engines : List String) (log : List String) :
    (compile_engines w pdf_path engines log).2 = some pdf_path ↔
      ∃ g ∈ engines, w.available g = true ∧ w.pdf_exists g = true := by
  induction engines generalizing log with
  | nil => simp [compile_engines]
  | cons g rest ih =>
    simp only [compile_engines]
    by_cases hg : w.available g = false
    · rw [if_pos hg]
      simp [hg, ih]
    · have hg' : w.available g = true := by
        revert hg; cases w.available g <;> simp
      rw [if_neg hg]
      by_cases hp : w.pdf_exists g = true
      · cases hr : (engine_runs w g).2 <;> simp [hr, hp, hg']
      · have hp' : w.pdf_exists g = false := by
          revert hp; cases w.pdf_exists g <;> simp
        simp [hp', hg', ih]

/-- The last element of a cons around a list ending in `[a]` is `a`. -/
theorem getLast?_cons_concat {α : Type} (x a : α) (l : List α) :
    (x :: (l ++ [a])).getLast? = some a := by
  rw [← List.cons_append, List.getLast?_concat]

/-- Appending a nonempty list on the right determines the last element. -/
theorem getLast?_append_cons {α : Type} (l : List α) (y : α) (ys : List α) :
    (l ++ y :: ys).getLast? = (y :: ys).getLast? := by
  rw [List.getLast?_append]
  cases hgl : (y :: ys).getLast? with
  | none => simp at hgl
  | some z => rfl

/-- With every candidate before `g` failing to produce the artifact and `g`
available with the artifact on disk, the loop's log ends with the
SUCCESS entry for `g` (clean two-run success) or the WARNING entry for `g`
(artifact present despite a failed run). -/
theorem engine_loop_log_getLast (w : CompilerWorld) (pre : List String) (g : String)
    (post : List String)
    (hpre : ∀ e ∈ pre, ¬(w.available e = true ∧ w.pdf_exists e = true))
    (hg_av : w.available g = true) (hg_pdf : w.pdf_exists g = true) :
    (engine_loop_log w (pre ++ g :: post)).getLast?
      = some (if (engine_runs w g).2 = true then
                "SUCCESS: PDF generated successfully with " ++ g
              else "WARNING: PDF generated with errors using " ++ g) := by
  induction pre with
  | nil =>
    rw [List.nil_append]
    simp only [engine_loop_log, if_neg (by simp [hg_av] : ¬ w.available g = false)]
    cases hr : (engine_runs w g).2 <;> simp [hr, hg_pdf, getLast?_cons_concat]
  | cons e pre' ih =>
    have he := hpre e (by simp)
    have ih2 := ih (fun x hx => hpre x (by simp [hx]))
    rw [List.cons_append]
    by_cases hav : w.available e = false
    · simp only [engine_loop_log, if_pos hav]
      obtain ⟨y, ys, hys⟩ :=
        List.exists_cons_of_ne_nil (engine_loop_log_ne_nil w (pre' ++ g :: post))
      rw [hys, List.getLast?_cons_cons, ← hys]
      exact ih2
    · have hav' : w.available e = true := by
        revert hav; cases w.available e <;> simp
      have hpdf : w.pdf_exists e = false := by
        rcases hx : w.pdf_exists e with _ | _
        · rfl
        · exact absurd ⟨hav', hx⟩ he
      simp only [engine_loop_log, if_neg hav, hpdf, Bool.and_false, Bool.false_eq_true,
        if_false]
      obtain ⟨y, ys, hys⟩ :=
        List.exists_cons_of_ne_nil (engine_loop_log_ne_nil w (pre' ++ g :: post))
      rw [hys]
      have hcons : ("\n=== Trying engine: " ++ e ++ " ===") ::
            ((engine_runs w e).1 ++ (("FAILED: No PDF generated with " ++ e) :: y :: ys))
          = (("\n=== Trying engine: " ++ e ++ " ===") ::
              ((engine_runs w e).1 ++ ["FAILED: No PDF generated with " ++ e])) ++ (y :: ys) := by
        simp
      rw [hcons, getLast?_append_cons, ← hys]
      exact ih2

/-- Claim C5 (confirmed): whenever the configured primary engine's
availability probe fails but some fallback candidate is available and leaves
the artifact on disk (every earlier candidate failing to produce it),
`_run_latex_compilation` succeeds; the returned log consists of exactly one
entry for the primary — "not available, skipping..." (so the primary is
never recorded as failed and the probe contributes no run entry and consumes
no compilation attempt) — followed by the fallback candidates' own loop
entries, whose final entry names the producing fallback in its SUCCESS line
(clean two-run success) or WARNING line (artifact despite a failed run). -/
theorem C5_unavailable_primary_uses_fallback (w : CompilerWorld)
    (latex_engine pdf_path : String) (pre : List String) (g : String) (post : List String)
    (hsplit : fallback_engines latex_engine = pre ++ g :: post)
    (hprimary : w.available latex_engine = false)
    (hpre : ∀ e ∈ pre, ¬(w.available e = true ∧ w.pdf_exists e = true))
    (hg_av : w.available g = true)
    (hg_pdf : w.pdf_exists g = true) :
    run_latex_compilation w latex_engine pdf_path
      = .ok (pdf_path, String.intercalate "\n"
          (("Engine " ++ latex_engine ++ " not available, skipping...")
            :: engine_loop_log w (fallback_engines latex_engine))) ∧
    (engine_loop_log w (fallback_engines latex_engine)).getLast?
      = some (if (engine_runs w g).2 = true then
                "SUCCESS: PDF generated successfully with " ++ g
              else "WARNING: PDF generated with errors using " ++ g) := by
  constructor
  · have houtcome : (compile_engines w pdf_path (engines_to_try latex_engine) []).2
        = some pdf_path := by
      rw [compile_engines_some_iff]
      refine ⟨g, ?_, hg_av, hg_pdf⟩
      rw [engines_to_try_eq, hsplit]
      simp
    have hlog := compile_engines_log_spec w pdf_path (engines_to_try latex_engine) []
    unfold run_latex_compilation
    rcases hres : compile_engines w pdf_path (engines_to_try latex_engine) [] with ⟨lines, out⟩
    rw [hres] at houtcome hlog
    simp only at houtcome hlog
    subst houtcome
    simp only [hlog, List.nil_append, engines_to_try_eq, engine_loop_log, if_pos hprimary]
  · rw [hsplit]
    exact engine_loop_log_getLast w pre g post hpre hg_av hg_pdf

/-- A world in which only xelatex is available, runs cleanly, and leaves the
artifact on disk. -/
def fallbackWorld : CompilerWorld :=
  { available := fun g => g == "xelatex",
    run := fun _ _ => .completed 0 "This is XeTeX output" "",
    pdf_exists := fun g => g == "xelatex" }

/-- Witness for C5 in `fallbackWorld`: the primary pdflatex is skipped and
the first fallback xelatex produces the artifact. -/
theorem C5_unavailable_primary_uses_fallback_witness :
    run_latex_compilation fallbackWorld "pdflatex" "document.pdf"
      = .ok ("document.pdf", String.intercalate "\n"
          (("Engine " ++ "pdflatex" ++ " not available, skipping...")
            :: engine_loop_log fallbackWorld (fallback_engines "pdflatex"))) ∧
    (engine_loop_log fallbackWorld (fallback_engines "pdflatex")).getLast?
      = some (if (engine_runs fallbackWorld "xelatex").2 = true then
                "SUCCESS: PDF generated successfully with " ++ "xelatex"
              else "WARNING: PDF generated with errors using " ++ "xelatex") :=
  C5_unavailable_primary_uses_fallback fallbackWorld "pdflatex" "document.pdf"
    [] "xelatex" ["lualatex"] rfl rfl (by simp) rfl rfl

/-! ## Theorems: generation client -/

/-- Claim C8 (corrected): `generate_latex` fails with the wrapped
`GenerationError` exactly when the remote call raises (error, timeout,
blocked response); but a returned text is stripped and handed back as-is with
no emptiness check, so an empty response *is* returned to the caller as valid
markup (see `C8_empty_response_not_rejected`). -/
theorem C8_generation_failure_modes (remote : RemoteOutcome) (prompt : String)
    (context : Option String) :
    (∀ m, remote = .failure m →
      generate_latex remote prompt context
        = .error ("Failed to generate LaTeX code: " ++ m)) ∧
    (∀ t, remote = .success t →
      generate_latex remote prompt context = .ok (py_strip t)) := by
  constructor <;> intro x hx <;> subst hx <;> rfl

/-- Witness for C8: a timed-out remote call yields the wrapped error. -/
theorem C8_generation_failure_modes_witness :
    generate_latex (.failure "504 Deadline Exceeded") "a short letter" none
      = .error ("Failed to generate LaTeX code: " ++ "504 Deadline Exceeded") :=
  (C8_generation_failure_modes (.failure "504 Deadline Exceeded") "a short letter" none).1
    "504 Deadline Exceeded" rfl

/-- Counterexample for C8 as stated: an empty remote response — and likewise
a whitespace-only one — is returned as `ok ""`, not rejected with a
`GenerationError`. -/
theorem C8_empty_response_not_rejected :
    generate_latex (.success "") "a short letter" none = .ok "" ∧
    generate_latex (.success " \n ") "a short letter" none = .ok "" := by
  exact ⟨rfl, rfl⟩

/-! ## Theorems: generate-and-compile orchestrator -/

/-- Claim C1 (corrected): with retries enabled and a first compilation
failure, `generate_and_compile` makes exactly 2 generation calls and (when
the regeneration succeeds and the retry also fails) exactly 2 compilation
attempts; the returned failure's error message is built from the *second*
attempt's exception, but the `compilation_log` field is `None` — the
compiler's exception carries no log, so the local `compilation_log` is never
bound on a failing run and neither attempt's log is returned. -/
theorem C1_retry_protocol (latex_engine default_output_dir : String)
    (gen : Nat → Option String → Except String String)
    (comp : Nat → Except String (String × String))
    (prompt : String) (output_filename : Option String) (default_name : String)
    (context : Option String) (save_tex : Bool) (c0 c1 e1 e2 : String)
    (hg0 : gen 0 context = .ok c0)
    (hc0 : comp 0 = .error e1)
    (hg1 : ∀ ctx, gen 1 ctx = .ok c1)
    (hc1 : comp 1 = .error e2) :
    (generate_and_compile latex_engine default_output_dir gen comp prompt
        output_filename default_name context save_tex true).gen_calls = 2 ∧
    (generate_and_compile latex_engine default_output_dir gen comp prompt
        output_filename default_name context save_tex true).compile_attempts = 2 ∧
    (generate_and_compile latex_engine default_output_dir gen comp prompt
        output_filename default_name context save_tex true).result.success = false ∧
    (generate_and_compile latex_engine default_output_dir gen comp prompt
        output_filename default_name context save_tex true).result.error
      = some ("LaTeX compilation failed: " ++ e2) ∧
    (generate_and_compile latex_engine default_output_dir gen comp prompt
        output_filename default_name context save_tex true).result.compilation_log
      = none := by
  simp [generate_and_compile, hg0, hc0, hc1, hg1]

/-- Generation oracle of the C1 scenario: the first call produces `codeA`,
the regeneration produces `codeB`. -/
def genTwoCodes : Nat → Option String → Except String String :=
  fun n _ => if n == 0 then .ok "codeA" else .ok "codeB"

/-- Compilation oracle of the C1 scenario: every attempt raises the message
`_run_latex_compilation` raises when all engines fail. -/
def compAlwaysFails : Nat → Except String (String × String) :=
  fun _ => .error "All LaTeX engines failed. Last error: None. See compilation log for details."

/-- Witness for C1 at the concrete oracles. -/
theorem C1_retry_protocol_witness :
    (generate_and_compile "pdflatex" "output" genTwoCodes compAlwaysFails "a letter"
        (some "doc") "deadbeef" none true true).gen_calls = 2 ∧
    (generate_and_compile "pdflatex" "output" genTwoCodes compAlwaysFails "a letter"
        (some "doc") "deadbeef" none true true).compile_attempts = 2 ∧
    (generate_and_compile "pdflatex" "output" genTwoCodes compAlwaysFails "a letter"
        (some "doc") "deadbeef" none true true).result.success = false ∧
    (generate_and_compile "pdflatex" "output" genTwoCodes compAlwaysFails "a letter"
        (some "doc") "deadbeef" none true true).result.error
      = some ("LaTeX compilation failed: "
          ++ "All LaTeX engines failed. Last error: None. See compilation log for details.") ∧
    (generate_and_compile "pdflatex" "output" genTwoCodes compAlwaysFails "a letter"
        (some "doc") "deadbeef" none true true).result.compilation_log = none :=
  C1_retry_protocol "pdflatex" "output" genTwoCodes compAlwaysFails "a letter"
    (some "doc") "deadbeef" none true "codeA" "codeB"
    "All LaTeX engines failed. Last error: None. See compilation log for details."
    "All LaTeX engines failed. Last error: None. See compilation log for details."
    rfl rfl (fun _ => rfl) rfl

/-- Counterexample for C1 as stated: in the retry scenario (both compilation
attempts fail), the returned failure's `compilation_log` is `None` — it does
not reflect the second compilation attempt's log (nor any log); meanwhile the
call indeed made exactly 2 generation calls and 2 compilation attempts, and
the returned `latex_code` is the regenerated one. -/
theorem C1_failure_log_is_none :
    (generate_and_compile "pdflatex" "output" genTwoCodes compAlwaysFails "a letter"
        (some "doc") "deadbeef" none true true).result.compilation_log = none ∧
    (generate_and_compile "pdflatex" "output" genTwoCodes compAlwaysFails "a letter"
        (some "doc") "deadbeef" none true true).result.latex_code = some "codeB" ∧
    (generate_and_compile "pdflatex" "output" genTwoCodes compAlwaysFails "a letter"
        (some "doc") "deadbeef" none true true).gen_calls = 2 ∧
    (generate_and_compile "pdflatex" "output" genTwoCodes compAlwaysFails "a letter"
        (some "doc") "deadbeef" none true true).compile_attempts = 2 := by
  refine ⟨rfl, rfl, rfl, rfl⟩

/-- Claim C4 (corrected): when the generated markup contains both
`\documentclass` and `altacv`, `generate_and_compile` force-selects xelatex —
but by replacing `self.latex_compiler` on the processor, so the engine
configured when the call returns is xelatex, whatever engine was configured
before and however generation/compilation proceed afterwards.  The override
is *not* scoped to the call. -/
theorem C4_altacv_forces_xelatex (latex_engine default_output_dir : String)
    (gen : Nat → Option String → Except String String)
    (comp : Nat → Except String (String × String))
    (prompt : String) (output_filename : Option String) (default_name : String)
    (context : Option String) (save_tex retry_on_error : Bool) (c0 : String)
    (hg0 : gen 0 context = .ok c0)
    (hdc : str_contains c0 "\\documentclass" = true)
    (halt : str_contains c0 "altacv" = true) :
    (generate_and_compile latex_engine default_output_dir gen comp prompt
        output_filename default_name context save_tex retry_on_error).final_engine
      = "xelatex" := by
  have he : (if str_contains c0 "\\documentclass" && str_contains c0 "altacv"
      && (latex_engine != "xelatex") then "xelatex" else latex_engine) = "xelatex" := by
    rw [hdc, halt]
    by_cases hx : latex_engine = "xelatex"
    · subst hx; simp
    · simp [bne_iff_ne, hx]
  simp only [generate_and_compile, hg0, he]
  repeat' split
  all_goals rfl

/-- Generation oracle producing altacv markup. -/
def genAltacv : Nat → Option String → Except String String :=
  fun _ _ => .ok "\\documentclass[10pt]\x7baltacv\x7d codeCV"

/-- Compilation oracle that succeeds immediately. -/
def compSucceeds : Nat → Except String (String × String) :=
  fun _ => .ok ("output/cv.pdf", "SUCCESS: PDF generated successfully with xelatex")

/-- Witness for C4: a processor configured with lualatex ends the call
configured with xelatex. -/
theorem C4_altacv_forces_xelatex_witness :
    (generate_and_compile "lualatex" "output" genAltacv compSucceeds "a modern cv"
        (some "cv") "x" none true false).final_engine = "xelatex" :=
  C4_altacv_forces_xelatex "lualatex" "output" genAltacv compSucceeds "a modern cv"
    (some "cv") "x" none true false "\\documentclass[10pt]\x7baltacv\x7d codeCV"
    rfl rfl rfl

/-- Counterexample for C4 as stated: a processor configured with pdflatex
that generates altacv markup does *not* return to pdflatex after the call —
the configured engine when the call returns is xelatex, so a subsequent call
with non-altacv markup would start from xelatex, not the originally
configured engine. -/
theorem C4_engine_switch_persists :
    (generate_and_compile "pdflatex" "output" genAltacv compSucceeds "a modern cv"
        (some "cv") "x" none true true).final_engine = "xelatex" ∧
    (generate_and_compile "pdflatex" "output" genAltacv compSucceeds "a modern cv"
        (some "cv") "x" none true true).final_engine ≠ "pdflatex" := by
  refine ⟨rfl, by decide⟩

end GeminiLatex
